import Mathlib

/-!
# Vulkan instance bootstrap (`src/main.cpp`): embedding and verified properties

The program negotiates validation layers and instance extensions with the
Vulkan driver, creates a `VkInstance`, optionally attaches a debug messenger,
runs the GLFW event loop and tears everything down.

The driver, the windowing toolkit and the build configuration are the
environment of the program.  They are made explicit:

* `enable_vk_validation` (a constant fixed by `NDEBUG` in the source) is a
  `Bool` argument of every function that reads it;
* the answers of the driver and of GLFW are the fields of `Host`;
* every function that calls the driver returns the list of driver calls it
  made (`DriverCall`), in program order, next to its result;
* `throw std::runtime_error(msg)` is `Except.error ⟨msg⟩`.
-/

namespace VulkanDemos

/-! ## Vulkan types and constants used by the program

The types and constants of this section come from the Vulkan headers, which
the program includes through GLFW; the constants carry the values the headers
give them.  The proofs use of these values only that the four severity bits
are pairwise different. -/

/-- Handle of a driver instance (an opaque pointer in the Vulkan headers). -/
abbrev VkInstance := Nat

/-- Handle of a debug messenger (an opaque pointer in the Vulkan headers). -/
abbrev VkDebugUtilsMessengerEXT := Nat

/-- Result code of a driver call; negative codes are errors, positive ones are
non-error statuses other than success. -/
abbrev VkResult := Int

/-- Vulkan boolean (a 32 bit unsigned integer). -/
abbrev VkBool32 := Nat

def VK_SUCCESS : VkResult := 0

def VK_FALSE : VkBool32 := 0

def VK_EXT_DEBUG_UTILS_EXTENSION_NAME : String := "VK_EXT_debug_utils"

def VK_DEBUG_UTILS_MESSAGE_SEVERITY_VERBOSE_BIT_EXT : Nat := 0x00000001

def VK_DEBUG_UTILS_MESSAGE_SEVERITY_INFO_BIT_EXT : Nat := 0x00000010

def VK_DEBUG_UTILS_MESSAGE_SEVERITY_WARNING_BIT_EXT : Nat := 0x00000100

def VK_DEBUG_UTILS_MESSAGE_SEVERITY_ERROR_BIT_EXT : Nat := 0x00001000

def VK_DEBUG_UTILS_MESSAGE_TYPE_GENERAL_BIT_EXT : Nat := 0x00000001

def VK_DEBUG_UTILS_MESSAGE_TYPE_VALIDATION_BIT_EXT : Nat := 0x00000002

def VK_DEBUG_UTILS_MESSAGE_TYPE_PERFORMANCE_BIT_EXT : Nat := 0x00000004

def VK_STRUCTURE_TYPE_APPLICATION_INFO : Nat := 0

def VK_STRUCTURE_TYPE_INSTANCE_CREATE_INFO : Nat := 1

def VK_STRUCTURE_TYPE_DEBUG_UTILS_MESSENGER_CREATE_INFO_EXT : Nat := 1000128004

/-- The version packing of the Vulkan headers, on 32 bit unsigned integers. -/
def VK_MAKE_VERSION (major minor patch : Nat) : Nat :=
  (((major % 2 ^ 32) <<< 22) % 2 ^ 32) ||| (((minor % 2 ^ 32) <<< 12) % 2 ^ 32) ||| (patch % 2 ^ 32)

/-- One installed layer as reported by the driver. -/
structure VkLayerProperties where
  layerName : String
  specVersion : Nat
  implementationVersion : Nat
  description : String
  deriving DecidableEq, Repr

structure VkApplicationInfo where
  sType : Nat
  pApplicationName : String
  applicationVersion : Nat
  pEngineName : String
  engineVersion : Nat
  apiVersion : Nat
  deriving DecidableEq, Repr

/-- The instance creation request.  The two name arrays are the arrays the
pointers refer to (the empty list for a null pointer); the driver reads the
first `enabledLayerCount`, respectively `enabledExtensionCount`, entries. -/
structure VkInstanceCreateInfo where
  sType : Nat
  pApplicationInfo : Option VkApplicationInfo
  enabledLayerCount : Nat
  ppEnabledLayerNames : List String
  enabledExtensionCount : Nat
  ppEnabledExtensionNames : List String
  deriving DecidableEq, Repr

/-- The layer names the driver reads from a creation request: the first
`enabledLayerCount` entries of the array, or `none` when the count exceeds the
array (a read past its end). -/
def VkInstanceCreateInfo.layerNames (info : VkInstanceCreateInfo) : Option (List String) :=
  if info.enabledLayerCount ≤ info.ppEnabledLayerNames.length then
    some (info.ppEnabledLayerNames.take info.enabledLayerCount)
  else none

/-- The extension names the driver reads from a creation request: the first
`enabledExtensionCount` entries of the array, or `none` when the count exceeds
the array (a read past its end). -/
def VkInstanceCreateInfo.extensionNames (info : VkInstanceCreateInfo) :
    Option (List String) :=
  if info.enabledExtensionCount ≤ info.ppEnabledExtensionNames.length then
    some (info.ppEnabledExtensionNames.take info.enabledExtensionCount)
  else none

/-- The payload struct handed to the debug callback (only the field the
program reads). -/
structure VkDebugUtilsMessengerCallbackDataEXT where
  pMessage : String
  deriving DecidableEq, Repr

/-- One operation on the `std::cerr` stream. -/
inductive SinkOp where
  | text (s : String)
  | endl
  deriving DecidableEq, Repr

/-- Type of the user callback registered with the driver. -/
abbrev PFN_vkDebugUtilsMessengerCallbackEXT :=
  Nat → Nat → VkDebugUtilsMessengerCallbackDataEXT → Nat → List SinkOp × VkBool32

structure VkDebugUtilsMessengerCreateInfoEXT where
  sType : Nat
  messageSeverity : Nat
  messageType : Nat
  pfnUserCallback : PFN_vkDebugUtilsMessengerCallbackEXT
  pUserData : Nat

/-! ## The environment -/

/-- What the program observes of its environment: the header version it was
built against, the extension list GLFW asks for, the layers the driver
reports as installed (the same list on both enumeration calls), the answers
of the two creation entry points (result code and the handle written to the
out-parameter), and the number of event polls after which the window reports
that it should close. -/
structure Host where
  VK_HEADER_VERSION : Nat
  glfwGetRequiredInstanceExtensions : List String
  vkEnumerateInstanceLayerProperties : List VkLayerProperties
  vkCreateInstance : VkInstanceCreateInfo → VkResult × VkInstance
  vkCreateDebugUtilsMessengerEXT :
    VkInstance → VkDebugUtilsMessengerCreateInfoEXT → VkResult × VkDebugUtilsMessengerEXT
  pollsUntilClose : Nat

/-- A call the program makes into the driver, with the answer it got. -/
inductive DriverCall where
  | vkEnumerateInstanceLayerProperties (countOnly : Bool)
  | vkCreateInstance (info : VkInstanceCreateInfo) (answer : VkResult × VkInstance)
  | vkCreateDebugUtilsMessengerEXT (instance_ : VkInstance)
      (info : VkDebugUtilsMessengerCreateInfoEXT)
      (answer : VkResult × VkDebugUtilsMessengerEXT)
  | vkDestroyDebugUtilsMessengerEXT (instance_ : VkInstance)
      (messenger : VkDebugUtilsMessengerEXT)
  | vkDestroyInstance (instance_ : VkInstance)

/-- The exception type thrown by the program. -/
structure runtime_error where
  what : String
  deriving DecidableEq, Repr

/-- The error of `create_instance` when a requested layer is not installed. -/
def CapabilityUnavailable : runtime_error :=
  ⟨"Validation layers requested but not available"⟩

/-- The error of `create_instance` when the driver refuses the request. -/
def DriverCreationFailed : runtime_error :=
  ⟨"Failed to create vk instance"⟩

/-- The error of `create_debug_messenger` when the driver refuses the
registration. -/
def ChannelCreationFailed : runtime_error :=
  ⟨"Failed to create vk debug messenger"⟩

/-! ## The program -/

/-- The constant array `validation_layers`. -/
def validation_layers : List String :=
  ["VK_LAYER_LUNARG_standard_validation"]

/-- The range-for loop of `check_validation_layer_support`: for each requested
name, `std::find_if` over the available layers with `strcmp(..) == 0`; the
first name that is not found makes the function return false. -/
def check_validation_layer_support_loop (available_layers : List VkLayerProperties) :
    List String → Bool
  | [] => true
  | layer_name :: rest =>
    match available_layers.find? (fun other => layer_name == other.layerName) with
    | none => false
    | some _ => check_validation_layer_support_loop available_layers rest

/-- The function `check_validation_layer_support`, with the global array it
iterates over as the argument `requested`.  The driver is asked twice, first
for the count and then for the entries. -/
def check_validation_layer_support (requested : List String) (h : Host) :
    List DriverCall × Bool :=
  let available_layers := h.vkEnumerateInstanceLayerProperties
  ([.vkEnumerateInstanceLayerProperties true, .vkEnumerateInstanceLayerProperties false],
   check_validation_layer_support_loop available_layers requested)

/-- The function `get_required_extensions`. -/
def get_required_extensions (enable_vk_validation : Bool) (h : Host) : List String :=
  let extensions := h.glfwGetRequiredInstanceExtensions
  if enable_vk_validation then
    extensions ++ [VK_EXT_DEBUG_UTILS_EXTENSION_NAME]
  else
    extensions

/-- The function `debug_callback`: the stream operations on `std::cerr`, in
order, and the value returned to the driver. -/
def debug_callback (message_severity : Nat) (_message_type : Nat)
    (p_callback_data : VkDebugUtilsMessengerCallbackDataEXT) (_p_user_data : Nat) :
    List SinkOp × VkBool32 :=
  let head := [SinkOp.text "Validation layer "]
  let tag :=
    if message_severity = VK_DEBUG_UTILS_MESSAGE_SEVERITY_WARNING_BIT_EXT then
      [SinkOp.text "WARNING"]
    else if message_severity = VK_DEBUG_UTILS_MESSAGE_SEVERITY_INFO_BIT_EXT then
      [SinkOp.text "INFO"]
    else if message_severity = VK_DEBUG_UTILS_MESSAGE_SEVERITY_ERROR_BIT_EXT then
      [SinkOp.text "ERROR"]
    else
      []
  (head ++ tag ++ [SinkOp.text ": ", SinkOp.text p_callback_data.pMessage, SinkOp.endl],
   VK_FALSE)

/-- The registration request built by `create_debug_messenger`. -/
def create_debug_messenger_create_info : VkDebugUtilsMessengerCreateInfoEXT where
  sType := VK_STRUCTURE_TYPE_DEBUG_UTILS_MESSENGER_CREATE_INFO_EXT
  messageSeverity := VK_DEBUG_UTILS_MESSAGE_SEVERITY_VERBOSE_BIT_EXT
                      ||| VK_DEBUG_UTILS_MESSAGE_SEVERITY_WARNING_BIT_EXT
                      ||| VK_DEBUG_UTILS_MESSAGE_SEVERITY_INFO_BIT_EXT
                      ||| VK_DEBUG_UTILS_MESSAGE_SEVERITY_ERROR_BIT_EXT
  messageType := VK_DEBUG_UTILS_MESSAGE_TYPE_GENERAL_BIT_EXT
                  ||| VK_DEBUG_UTILS_MESSAGE_TYPE_VALIDATION_BIT_EXT
                  ||| VK_DEBUG_UTILS_MESSAGE_TYPE_PERFORMANCE_BIT_EXT
  pfnUserCallback := debug_callback
  pUserData := 0

/-- The function `create_debug_messenger`. -/
def create_debug_messenger (h : Host) (instance_ : VkInstance) :
    List DriverCall × Except runtime_error VkDebugUtilsMessengerEXT :=
  let create_info := create_debug_messenger_create_info
  let answer := h.vkCreateDebugUtilsMessengerEXT instance_ create_info
  let calls := [DriverCall.vkCreateDebugUtilsMessengerEXT instance_ create_info answer]
  if answer.1 ≠ VK_SUCCESS then
    (calls, .error ChannelCreationFailed)
  else
    (calls, .ok answer.2)

/-- The `app_info` built by `create_instance`. -/
def create_instance_app_info (h : Host) : VkApplicationInfo where
  sType := VK_STRUCTURE_TYPE_APPLICATION_INFO
  pApplicationName := "Triangle"
  applicationVersion := 1
  pEngineName := ""
  engineVersion := 1
  apiVersion := VK_MAKE_VERSION 1 0 h.VK_HEADER_VERSION

/-- The `create_info` built by `create_instance` (lines 127 to 142). -/
def create_instance_create_info (enable_vk_validation : Bool) (h : Host) :
    VkInstanceCreateInfo :=
  let extensions := get_required_extensions enable_vk_validation h
  { sType := VK_STRUCTURE_TYPE_INSTANCE_CREATE_INFO
    pApplicationInfo := some (create_instance_app_info h)
    enabledLayerCount := if enable_vk_validation then validation_layers.length else 0
    ppEnabledLayerNames := if enable_vk_validation then validation_layers else []
    enabledExtensionCount := extensions.length
    ppEnabledExtensionNames := extensions }

/-- The function `create_instance`. -/
def create_instance (enable_vk_validation : Bool) (h : Host) :
    List DriverCall × Except runtime_error VkInstance :=
  let checked : List DriverCall × Bool :=
    if enable_vk_validation then check_validation_layer_support validation_layers h
    else ([], true)
  if checked.2 = false then
    (checked.1, .error CapabilityUnavailable)
  else
    let create_info := create_instance_create_info enable_vk_validation h
    let answer := h.vkCreateInstance create_info
    let calls := checked.1 ++ [DriverCall.vkCreateInstance create_info answer]
    if answer.1 ≠ VK_SUCCESS then
      (calls, .error DriverCreationFailed)
    else
      (calls, .ok answer.2)

/-- The aggregate `VulkanApp`; the field `instance` is spelled `instance_`
because `instance` is a reserved word. -/
structure VulkanApp where
  instance_ : VkInstance
  debug_messenger : VkDebugUtilsMessengerEXT
  deriving DecidableEq, Repr

/-- The body of `create_vulkan_app` up to its closing brace: the driver calls
made and the contents of the local variable `app` there.  `uninit` is what the
uninitialised local holds when it is declared. -/
def create_vulkan_app_body (enable_vk_validation : Bool) (h : Host) (uninit : VulkanApp) :
    List DriverCall × Except runtime_error VulkanApp :=
  let app := uninit
  match create_instance enable_vk_validation h with
  | (calls, .error e) => (calls, .error e)
  | (calls, .ok instance_) =>
    let app : VulkanApp := { app with instance_ := instance_ }
    if enable_vk_validation then
      match create_debug_messenger h app.instance_ with
      | (calls2, .error e) => (calls ++ calls2, .error e)
      | (calls2, .ok messenger) =>
        (calls ++ calls2, .ok { app with debug_messenger := messenger })
    else
      (calls, .ok app)

/-- The function `create_vulkan_app`.  Its body has no `return` statement:
control reaches the closing brace and the caller receives an indeterminate
aggregate, `indeterminate`, whatever the local `app` holds. -/
def create_vulkan_app (enable_vk_validation : Bool) (h : Host)
    (uninit indeterminate : VulkanApp) : List DriverCall × Except runtime_error VulkanApp :=
  match create_vulkan_app_body enable_vk_validation h uninit with
  | (calls, .error e) => (calls, .error e)
  | (calls, .ok _) => (calls, .ok indeterminate)

/-- The function `destroy_vulkan_app`: the driver calls it makes. -/
def destroy_vulkan_app (enable_vk_validation : Bool) (app : VulkanApp) : List DriverCall :=
  (if enable_vk_validation then
      [DriverCall.vkDestroyDebugUtilsMessengerEXT app.instance_ app.debug_messenger]
    else [])
  ++ [DriverCall.vkDestroyInstance app.instance_]

/-- How the process ends: `main` returns `EXIT_SUCCESS`, or an exception
leaves `main` uncaught and the runtime terminates the process. -/
inductive ExitStatus where
  | EXIT_SUCCESS
  | terminate (e : runtime_error)
  deriving DecidableEq, Repr

/-- The event loop of `main`; it makes no driver call. -/
def main_event_loop : Nat → List DriverCall
  | 0 => []
  | polls + 1 => main_event_loop polls

/-- The function `main`: the driver calls up to process exit, and how the
process ends.  The GLFW calls around them (window creation, event polling,
window destruction) are no driver calls and leave no entry in the trace.
There is no `try` block: an exception thrown by `create_vulkan_app` ends the
process at once. -/
def main (enable_vk_validation : Bool) (h : Host) (uninit indeterminate : VulkanApp) :
    List DriverCall × ExitStatus :=
  match create_vulkan_app enable_vk_validation h uninit indeterminate with
  | (calls, .error e) => (calls, .terminate e)
  | (calls, .ok vk_app) =>
    (calls ++ main_event_loop h.pollsUntilClose ++ destroy_vulkan_app enable_vk_validation vk_app,
     .EXIT_SUCCESS)

/-! ## Observations on traces of driver calls -/

/-- The call asks the driver to create an instance. -/
def DriverCall.isCreateInstance : DriverCall → Bool
  | .vkCreateInstance _ _ => true
  | _ => false

/-- The call queries the installed layers. -/
def DriverCall.isEnumerateLayers : DriverCall → Bool
  | .vkEnumerateInstanceLayerProperties _ => true
  | _ => false

/-- The call destroys the instance `i`. -/
def DriverCall.destroysInstance (i : VkInstance) : DriverCall → Bool
  | .vkDestroyInstance j => decide (j = i)
  | _ => false

/-- The call destroys the messenger `m`. -/
def DriverCall.destroysMessenger (m : VkDebugUtilsMessengerEXT) : DriverCall → Bool
  | .vkDestroyDebugUtilsMessengerEXT _ n => decide (n = m)
  | _ => false

/-- The call is a successful creation of the instance `i`. -/
def DriverCall.createsInstance (i : VkInstance) : DriverCall → Bool
  | .vkCreateInstance _ answer => decide (answer.1 = VK_SUCCESS) && decide (answer.2 = i)
  | _ => false

/-- The call is one of the two destroy calls. -/
def DriverCall.isDestroy : DriverCall → Bool
  | .vkDestroyDebugUtilsMessengerEXT _ _ => true
  | .vkDestroyInstance _ => true
  | _ => false

/-- Replays a trace over the list of live messengers, each with the instance
it was created on, and tells whether every `vkDestroyInstance` in the trace
happens at a moment when no messenger of that instance is live.  A successful
`vkCreateDebugUtilsMessengerEXT` makes a messenger live, and
`vkDestroyDebugUtilsMessengerEXT` ends its life. -/
def instance_outlives_messengers :
    List (VkInstance × VkDebugUtilsMessengerEXT) → List DriverCall → Bool
  | _, [] => true
  | live, .vkCreateDebugUtilsMessengerEXT i _ answer :: rest =>
    instance_outlives_messengers
      (if answer.1 = VK_SUCCESS then (i, answer.2) :: live else live) rest
  | live, .vkDestroyDebugUtilsMessengerEXT i m :: rest =>
    instance_outlives_messengers (live.filter (fun c => !(c.1 == i && c.2 == m))) rest
  | live, .vkDestroyInstance i :: rest =>
    !(live.any (fun c => c.1 == i)) && instance_outlives_messengers live rest
  | live, _ :: rest => instance_outlives_messengers live rest

/-- The driver calls of `k` successive calls of `destroy_vulkan_app` on the
same aggregate. -/
def destroy_vulkan_app_times (enable_vk_validation : Bool) (app : VulkanApp) :
    Nat → List DriverCall
  | 0 => []
  | k + 1 =>
    destroy_vulkan_app enable_vk_validation app
      ++ destroy_vulkan_app_times enable_vk_validation app k

/-! ## Concrete environments -/

/-- A host with the validation layer installed on which both creation calls
succeed, with instance handle 7 and messenger handle 9. -/
def hostOk : Host where
  VK_HEADER_VERSION := 70
  glfwGetRequiredInstanceExtensions := ["ext.surface", "ext.platform_surface"]
  vkEnumerateInstanceLayerProperties :=
    [⟨"VK_LAYER_LUNARG_core_validation", 1, 1, ""⟩,
     ⟨"VK_LAYER_LUNARG_standard_validation", 1, 1, ""⟩]
  vkCreateInstance := fun _ => (0, 7)
  vkCreateDebugUtilsMessengerEXT := fun _ _ => (0, 9)
  pollsUntilClose := 3

/-- As `hostOk`, but no layer is installed. -/
def hostNoLayers : Host :=
  { hostOk with vkEnumerateInstanceLayerProperties := [] }

/-- As `hostOk`, but the driver refuses the messenger registration. -/
def hostChannelRejected : Host :=
  { hostOk with vkCreateDebugUtilsMessengerEXT := fun _ _ => (-7, 0) }

/-- As `hostOk`, but the driver refuses to create an instance (and writes the
handle 5 nevertheless). -/
def hostDriverRejects : Host :=
  { hostOk with vkCreateInstance := fun _ => (-9, 5) }

/-! ## Capability catalog -/

theorem loop_true_iff (available : List VkLayerProperties) (requested : List String) :
    check_validation_layer_support_loop available requested = true ↔
      ∀ name ∈ requested, ∃ layer ∈ available, layer.layerName = name := by
  induction requested with
  | nil => simp [check_validation_layer_support_loop]
  | cons name rest ih =>
    unfold check_validation_layer_support_loop
    cases hfind : available.find? (fun other => name == other.layerName) with
    | none =>
      simp only [List.find?_eq_none] at hfind
      simp only [Bool.false_eq_true, false_iff]
      intro hall
      obtain ⟨layer, hmem, heq⟩ := hall name (List.mem_cons_self _ _)
      exact hfind layer hmem (by simp [heq])
    | some layer =>
      have hmem := List.mem_of_find?_eq_some hfind
      have hp := List.find?_some hfind
      simp only [beq_iff_eq] at hp
      simp only [ih, List.mem_cons, forall_eq_or_imp]
      constructor
      · intro hrest
        exact ⟨⟨layer, hmem, hp.symm⟩, hrest⟩
      · intro hall
        exact hall.2

/-- C6: `check_validation_layer_support` answers true exactly when every
requested name equals the `layerName` of some installed layer; for the
program's own `validation_layers` this means the standard validation layer is
installed; the answer is true for an empty request and false for a non-empty
request against an empty installed list. -/
theorem check_validation_layer_support_spec (requested : List String) (h : Host) :
    ((check_validation_layer_support requested h).2 = true ↔
      ∀ name ∈ requested,
        ∃ layer ∈ h.vkEnumerateInstanceLayerProperties, layer.layerName = name)
    ∧ ((check_validation_layer_support validation_layers h).2 = true ↔
        ∃ layer ∈ h.vkEnumerateInstanceLayerProperties,
          layer.layerName = "VK_LAYER_LUNARG_standard_validation")
    ∧ (check_validation_layer_support [] h).2 = true
    ∧ (∀ name rest,
        (check_validation_layer_support (name :: rest)
          { h with vkEnumerateInstanceLayerProperties := [] }).2 = false) := by
  refine ⟨?_, ?_, ?_, ?_⟩
  · simp [check_validation_layer_support, loop_true_iff]
  · simp [check_validation_layer_support, loop_true_iff, validation_layers]
  · simp [check_validation_layer_support, check_validation_layer_support_loop]
  · intro name rest
    simp [check_validation_layer_support, check_validation_layer_support_loop]

/-! ## Extension resolver -/

/-- C7: with diagnostics disabled `get_required_extensions` returns the
windowing toolkit list unchanged; with diagnostics enabled it returns that
list followed by the one diagnostics extension name, so the length grows by
one and the toolkit list is an initial segment; on the scenario list the
disabled result is that list. -/
theorem get_required_extensions_spec (h : Host) :
    get_required_extensions false h = h.glfwGetRequiredInstanceExtensions
    ∧ get_required_extensions true h
        = h.glfwGetRequiredInstanceExtensions ++ [VK_EXT_DEBUG_UTILS_EXTENSION_NAME]
    ∧ (get_required_extensions true h).length
        = h.glfwGetRequiredInstanceExtensions.length + 1
    ∧ h.glfwGetRequiredInstanceExtensions <+: get_required_extensions true h
    ∧ get_required_extensions false
        { h with glfwGetRequiredInstanceExtensions := ["ext.surface", "ext.platform_surface"] }
        = ["ext.surface", "ext.platform_surface"] := by
  simp [get_required_extensions]

/-! ## Instance builder -/

theorem create_instance_disabled (h : Host) :
    create_instance false h =
      ([.vkCreateInstance (create_instance_create_info false h)
          (h.vkCreateInstance (create_instance_create_info false h))],
       if (h.vkCreateInstance (create_instance_create_info false h)).1 = VK_SUCCESS then
         .ok (h.vkCreateInstance (create_instance_create_info false h)).2
       else .error DriverCreationFailed) := by
  by_cases hr : (h.vkCreateInstance (create_instance_create_info false h)).1 = VK_SUCCESS
  · simp [create_instance, hr]
  · simp [create_instance, hr]

theorem create_instance_supported (h : Host)
    (hsup : (check_validation_layer_support validation_layers h).2 = true) :
    create_instance true h =
      ([.vkEnumerateInstanceLayerProperties true, .vkEnumerateInstanceLayerProperties false,
        .vkCreateInstance (create_instance_create_info true h)
          (h.vkCreateInstance (create_instance_create_info true h))],
       if (h.vkCreateInstance (create_instance_create_info true h)).1 = VK_SUCCESS then
         .ok (h.vkCreateInstance (create_instance_create_info true h)).2
       else .error DriverCreationFailed) := by
  have hcalls : (check_validation_layer_support validation_layers h).1 =
      [.vkEnumerateInstanceLayerProperties true, .vkEnumerateInstanceLayerProperties false] := rfl
  by_cases hr : (h.vkCreateInstance (create_instance_create_info true h)).1 = VK_SUCCESS
  · simp [create_instance, hr, hsup, hcalls]
  · simp [create_instance, hr, hsup, hcalls]

theorem create_instance_unsupported (h : Host)
    (hmiss : (check_validation_layer_support validation_layers h).2 = false) :
    create_instance true h =
      ([.vkEnumerateInstanceLayerProperties true, .vkEnumerateInstanceLayerProperties false],
       .error CapabilityUnavailable) := by
  have hcalls : (check_validation_layer_support validation_layers h).1 =
      [.vkEnumerateInstanceLayerProperties true, .vkEnumerateInstanceLayerProperties false] := rfl
  simp [create_instance, hmiss, hcalls]

/-- C2: when the installed layers do not cover `validation_layers`, start with
diagnostics enabled fails with `CapabilityUnavailable`; the only driver calls
made, by `create_vulkan_app` and by `main` up to process exit, are the two layer
enumerations, so no instance creation call occurs. -/
theorem start_unsupported_fails_before_driver (h : Host) (uninit indeterminate : VulkanApp)
    (hmiss : (check_validation_layer_support validation_layers h).2 = false) :
    (create_instance true h).2 = .error CapabilityUnavailable
    ∧ (create_vulkan_app true h uninit indeterminate).2 = .error CapabilityUnavailable
    ∧ (create_vulkan_app true h uninit indeterminate).1 =
        [.vkEnumerateInstanceLayerProperties true, .vkEnumerateInstanceLayerProperties false]
    ∧ (create_vulkan_app true h uninit indeterminate).1.countP DriverCall.isCreateInstance = 0
    ∧ (main true h uninit indeterminate).1.countP DriverCall.isCreateInstance = 0
    ∧ (main true h uninit indeterminate).2 = .terminate CapabilityUnavailable := by
  have hci := create_instance_unsupported h hmiss
  simp [main, create_vulkan_app, create_vulkan_app_body, hci, DriverCall.isCreateInstance]

theorem start_unsupported_fails_before_driver_witness :
    (check_validation_layer_support validation_layers hostNoLayers).2 = false
    ∧ (create_vulkan_app true hostNoLayers ⟨0, 0⟩ ⟨0, 0⟩).2 = .error CapabilityUnavailable
    ∧ (create_vulkan_app true hostNoLayers ⟨0, 0⟩ ⟨0, 0⟩).1.countP
        DriverCall.isCreateInstance = 0 :=
  ⟨by decide,
   (start_unsupported_fails_before_driver hostNoLayers ⟨0, 0⟩ ⟨0, 0⟩ (by decide)).2.1,
   (start_unsupported_fails_before_driver hostNoLayers ⟨0, 0⟩ ⟨0, 0⟩ (by decide)).2.2.2.1⟩

/-- C9: when the layer check passes or diagnostics are disabled,
`create_instance` sends one creation request; it returns the handle the driver
produced when the driver answers `VK_SUCCESS` and fails with
`DriverCreationFailed` on every other code, so a handle is returned exactly
when the driver reports success. -/
theorem create_instance_handle_iff_success (enable_vk_validation : Bool) (h : Host)
    (hcheck : enable_vk_validation = false
      ∨ (check_validation_layer_support validation_layers h).2 = true) :
    (create_instance enable_vk_validation h).2 =
      (if (h.vkCreateInstance (create_instance_create_info enable_vk_validation h)).1
            = VK_SUCCESS then
         .ok (h.vkCreateInstance (create_instance_create_info enable_vk_validation h)).2
       else .error DriverCreationFailed)
    ∧ ((∃ i, (create_instance enable_vk_validation h).2 = .ok i) ↔
        (h.vkCreateInstance (create_instance_create_info enable_vk_validation h)).1
          = VK_SUCCESS)
    ∧ (create_instance enable_vk_validation h).1.countP DriverCall.isCreateInstance = 1 := by
  cases enable_vk_validation with
  | false =>
    rw [create_instance_disabled]
    by_cases hr : (h.vkCreateInstance (create_instance_create_info false h)).1 = VK_SUCCESS
    · simp [hr, DriverCall.isCreateInstance]
    · simp [hr, DriverCall.isCreateInstance]
  | true =>
    have hsup : (check_validation_layer_support validation_layers h).2 = true := by
      rcases hcheck with hc | hc
      · exact absurd hc (by decide)
      · exact hc
    rw [create_instance_supported h hsup]
    by_cases hr : (h.vkCreateInstance (create_instance_create_info true h)).1 = VK_SUCCESS
    · simp [hr, DriverCall.isCreateInstance]
    · simp [hr, DriverCall.isCreateInstance]

theorem create_instance_handle_iff_success_witness :
    (create_instance true hostOk).2 = .ok 7
    ∧ (create_instance false hostDriverRejects).2 = .error DriverCreationFailed :=
  ⟨(create_instance_handle_iff_success true hostOk (Or.inr (by decide))).1,
   (create_instance_handle_iff_success false hostDriverRejects (Or.inl rfl)).1⟩

/-- C10: with diagnostics disabled `create_instance` makes no layer query (its
outcome is the same whatever layers are installed) and sends one creation
request whose layer count is zero with no layer array, and whose extension
array and count are the toolkit list and its length; with diagnostics enabled
and the layers supported it queries the layers and sends one request whose
layer array and count are `validation_layers` and its length, and whose
extension array and count are the list of `get_required_extensions` and its
length. -/
theorem create_instance_request (h : Host) (layers : List VkLayerProperties) :
    create_instance false { h with vkEnumerateInstanceLayerProperties := layers }
      = create_instance false h
    ∧ (create_instance false h).1 =
        [.vkCreateInstance (create_instance_create_info false h)
          (h.vkCreateInstance (create_instance_create_info false h))]
    ∧ (create_instance false h).1.countP DriverCall.isEnumerateLayers = 0
    ∧ (create_instance_create_info false h).enabledLayerCount = 0
    ∧ (create_instance_create_info false h).ppEnabledLayerNames = []
    ∧ (create_instance_create_info false h).layerNames = some []
    ∧ (create_instance_create_info false h).enabledExtensionCount
        = h.glfwGetRequiredInstanceExtensions.length
    ∧ (create_instance_create_info false h).ppEnabledExtensionNames
        = h.glfwGetRequiredInstanceExtensions
    ∧ (create_instance_create_info false h).extensionNames
        = some h.glfwGetRequiredInstanceExtensions
    ∧ ((check_validation_layer_support validation_layers h).2 = true →
        (create_instance true h).1 =
          [.vkEnumerateInstanceLayerProperties true,
           .vkEnumerateInstanceLayerProperties false,
           .vkCreateInstance (create_instance_create_info true h)
             (h.vkCreateInstance (create_instance_create_info true h))]
        ∧ (create_instance_create_info true h).enabledLayerCount = validation_layers.length
        ∧ (create_instance_create_info true h).ppEnabledLayerNames = validation_layers
        ∧ (create_instance_create_info true h).layerNames = some validation_layers
        ∧ (create_instance_create_info true h).enabledExtensionCount
            = (get_required_extensions true h).length
        ∧ (create_instance_create_info true h).ppEnabledExtensionNames
            = get_required_extensions true h
        ∧ (create_instance_create_info true h).extensionNames
            = some (get_required_extensions true h)) := by
  refine ⟨rfl, ?_, ?_, rfl, rfl, rfl, rfl, rfl, ?_, ?_⟩
  · rw [create_instance_disabled]
  · rw [create_instance_disabled]
    simp [DriverCall.isEnumerateLayers]
  · simp [create_instance_create_info, VkInstanceCreateInfo.extensionNames,
      get_required_extensions]
  · intro hsup
    rw [create_instance_supported h hsup]
    refine ⟨rfl, rfl, rfl, rfl, rfl, rfl, ?_⟩
    simp [create_instance_create_info, VkInstanceCreateInfo.extensionNames]

theorem create_instance_request_witness :
    (check_validation_layer_support validation_layers hostOk).2 = true
    ∧ (create_instance_create_info true hostOk).enabledLayerCount = 1
    ∧ (create_instance_create_info true hostOk).ppEnabledLayerNames
        = ["VK_LAYER_LUNARG_standard_validation"]
    ∧ (create_instance_create_info true hostOk).enabledExtensionCount = 3
    ∧ (create_instance_create_info true hostOk).ppEnabledExtensionNames
        = ["ext.surface", "ext.platform_surface", "VK_EXT_debug_utils"] :=
  ⟨by decide,
   ((create_instance_request hostOk []).2.2.2.2.2.2.2.2.2 (by decide)).2.1,
   ((create_instance_request hostOk []).2.2.2.2.2.2.2.2.2 (by decide)).2.2.1,
   ((create_instance_request hostOk []).2.2.2.2.2.2.2.2.2 (by decide)).2.2.2.2.1,
   ((create_instance_request hostOk []).2.2.2.2.2.2.2.2.2 (by decide)).2.2.2.2.2.1⟩

/-! ## Diagnostic callback -/

theorem debug_callback_returns_VK_FALSE (message_severity message_type : Nat)
    (p_callback_data : VkDebugUtilsMessengerCallbackDataEXT) (p_user_data : Nat) :
    (debug_callback message_severity message_type p_callback_data p_user_data).2 = VK_FALSE :=
  rfl

theorem debug_callback_one_line (message_severity message_type : Nat)
    (p_callback_data : VkDebugUtilsMessengerCallbackDataEXT) (p_user_data : Nat) :
    (debug_callback message_severity message_type p_callback_data p_user_data).1.count
        SinkOp.endl = 1
    ∧ SinkOp.text p_callback_data.pMessage
        ∈ (debug_callback message_severity message_type p_callback_data p_user_data).1 := by
  unfold debug_callback
  constructor
  · split_ifs <;> simp [List.count_cons]
  · simp

/-- C8: at severity verbose `debug_callback` writes the record without any
severity tag, the same record it writes for a value that is no severity at
all, although `create_debug_messenger` subscribes to verbose messages; the
three other severities are tagged. -/
theorem debug_callback_verbose_untagged :
    debug_callback VK_DEBUG_UTILS_MESSAGE_SEVERITY_VERBOSE_BIT_EXT
        VK_DEBUG_UTILS_MESSAGE_TYPE_GENERAL_BIT_EXT ⟨"m"⟩ 0
      = ([.text "Validation layer ", .text ": ", .text "m", .endl], VK_FALSE)
    ∧ debug_callback VK_DEBUG_UTILS_MESSAGE_SEVERITY_VERBOSE_BIT_EXT
        VK_DEBUG_UTILS_MESSAGE_TYPE_GENERAL_BIT_EXT ⟨"m"⟩ 0
      = debug_callback 0 VK_DEBUG_UTILS_MESSAGE_TYPE_GENERAL_BIT_EXT ⟨"m"⟩ 0
    ∧ debug_callback VK_DEBUG_UTILS_MESSAGE_SEVERITY_INFO_BIT_EXT
        VK_DEBUG_UTILS_MESSAGE_TYPE_GENERAL_BIT_EXT ⟨"m"⟩ 0
      = ([.text "Validation layer ", .text "INFO", .text ": ", .text "m", .endl], VK_FALSE)
    ∧ debug_callback VK_DEBUG_UTILS_MESSAGE_SEVERITY_WARNING_BIT_EXT
        VK_DEBUG_UTILS_MESSAGE_TYPE_GENERAL_BIT_EXT ⟨"m"⟩ 0
      = ([.text "Validation layer ", .text "WARNING", .text ": ", .text "m", .endl], VK_FALSE)
    ∧ debug_callback VK_DEBUG_UTILS_MESSAGE_SEVERITY_ERROR_BIT_EXT
        VK_DEBUG_UTILS_MESSAGE_TYPE_GENERAL_BIT_EXT ⟨"m"⟩ 0
      = ([.text "Validation layer ", .text "ERROR", .text ": ", .text "m", .endl], VK_FALSE)
    ∧ create_debug_messenger_create_info.messageSeverity
        &&& VK_DEBUG_UTILS_MESSAGE_SEVERITY_VERBOSE_BIT_EXT
      = VK_DEBUG_UTILS_MESSAGE_SEVERITY_VERBOSE_BIT_EXT
    ∧ create_debug_messenger_create_info.pfnUserCallback = debug_callback := by
  refine ⟨by decide, by decide, by decide, by decide, by decide, by decide, rfl⟩

/-! ## Lifecycle manager -/

theorem reversed_teardown_rejected :
    instance_outlives_messengers [(7, 9)]
      [.vkDestroyInstance 7, .vkDestroyDebugUtilsMessengerEXT 7 9] = false := by
  decide

theorem start_then_stop_ordered (h : Host) (uninit app : VulkanApp)
    (hstart : (create_vulkan_app_body true h uninit).2 = .ok app) :
    instance_outlives_messengers []
      ((create_vulkan_app_body true h uninit).1 ++ destroy_vulkan_app true app) = true := by
  by_cases hsup : (check_validation_layer_support validation_layers h).2 = true
  · have hci := create_instance_supported h hsup
    by_cases hinst : (h.vkCreateInstance (create_instance_create_info true h)).1 = VK_SUCCESS
    · simp only [hinst, if_true] at hci
      by_cases hchan : (h.vkCreateDebugUtilsMessengerEXT
          (h.vkCreateInstance (create_instance_create_info true h)).2
          create_debug_messenger_create_info).1 = VK_SUCCESS
      · simp only [create_vulkan_app_body, hci, create_debug_messenger, hchan, if_true,
          ne_eq, not_true_eq_false, if_false, Except.ok.injEq] at hstart ⊢
        subst hstart
        simp [instance_outlives_messengers, destroy_vulkan_app, hchan]
      · simp [create_vulkan_app_body, hci, create_debug_messenger, hchan] at hstart
    · simp only [hinst, if_false] at hci
      simp [create_vulkan_app_body, hci] at hstart
  · have hmiss : (check_validation_layer_support validation_layers h).2 = false := by
      simpa using hsup
    simp [create_vulkan_app_body, create_instance_unsupported h hmiss] at hstart

theorem destroy_vulkan_app_calls (app : VulkanApp)
    (live : List (VkInstance × VkDebugUtilsMessengerEXT))
    (hown : ∀ c ∈ live, c.1 = app.instance_ → c.2 = app.debug_messenger) :
    destroy_vulkan_app true app =
      [.vkDestroyDebugUtilsMessengerEXT app.instance_ app.debug_messenger,
       .vkDestroyInstance app.instance_]
    ∧ destroy_vulkan_app false app = [.vkDestroyInstance app.instance_]
    ∧ instance_outlives_messengers live (destroy_vulkan_app true app) = true := by
  refine ⟨rfl, rfl, ?_⟩
  simp only [destroy_vulkan_app, if_true, List.singleton_append,
    instance_outlives_messengers, Bool.and_true, Bool.not_eq_true_eq_eq_false,
    Bool.not_eq_eq_eq_not, Bool.not_true, Bool.not_eq_true']
  rw [List.any_eq_false]
  intro c hc
  simp only [List.mem_filter, Bool.not_eq_true', Bool.and_eq_false_iff, beq_eq_false_iff_ne,
    ne_eq] at hc
  simp only [beq_iff_eq]
  intro hci
  rcases hc.2 with hne | hne
  · exact hne hci
  · exact hne (hown c hc.1 hci)

/-- C3: on a host where both creation calls succeed, with handles 7 and 9,
the local `app` of `create_vulkan_app` holds 7 and 9 at the closing brace, but
no `return` statement hands it to the caller: the caller receives the
indeterminate aggregate instead. -/
theorem create_vulkan_app_drops_aggregate :
    (create_instance true hostOk).2 = .ok 7
    ∧ (create_debug_messenger hostOk 7).2 = .ok 9
    ∧ (create_vulkan_app_body true hostOk ⟨0, 0⟩).2 = .ok ⟨7, 9⟩
    ∧ (create_vulkan_app true hostOk ⟨0, 0⟩ ⟨1, 2⟩).2 = .ok ⟨1, 2⟩
    ∧ (create_vulkan_app_body false hostOk ⟨0, 0⟩).2 = .ok ⟨7, 0⟩
    ∧ (create_vulkan_app false hostOk ⟨0, 0⟩ ⟨1, 2⟩).2 = .ok ⟨1, 2⟩ :=
  ⟨rfl, rfl, rfl, rfl, rfl, rfl⟩

/-- C4 as stated fails: on a host that creates instance 7 and then refuses the
messenger, start fails with `ChannelCreationFailed`, yet the trace of `main`
up to process exit has no destroy call for instance 7. -/
theorem channel_rejected_instance_not_destroyed :
    (create_vulkan_app true hostChannelRejected ⟨0, 0⟩ ⟨0, 0⟩).2 = .error ChannelCreationFailed
    ∧ (main true hostChannelRejected ⟨0, 0⟩ ⟨0, 0⟩).1.any (DriverCall.createsInstance 7) = true
    ∧ ¬ ((main true hostChannelRejected ⟨0, 0⟩ ⟨0, 0⟩).1.any (DriverCall.destroysInstance 7)
          = true) :=
  ⟨rfl, by decide, by decide⟩

/-- C4 amended: when the layer check passes, the driver creates the instance
and then refuses the messenger registration, start fails with
`ChannelCreationFailed`, the exception ends the process, and the driver calls
up to process exit are the two layer queries, the instance creation and the
refused registration: no destroy call is made. -/
theorem channel_rejected_terminates_without_teardown (h : Host)
    (uninit indeterminate : VulkanApp)
    (hsup : (check_validation_layer_support validation_layers h).2 = true)
    (hinst : (h.vkCreateInstance (create_instance_create_info true h)).1 = VK_SUCCESS)
    (hchan : (h.vkCreateDebugUtilsMessengerEXT
        (h.vkCreateInstance (create_instance_create_info true h)).2
        create_debug_messenger_create_info).1 ≠ VK_SUCCESS) :
    (create_vulkan_app true h uninit indeterminate).2 = .error ChannelCreationFailed
    ∧ (main true h uninit indeterminate).2 = .terminate ChannelCreationFailed
    ∧ (main true h uninit indeterminate).1 =
        [.vkEnumerateInstanceLayerProperties true,
         .vkEnumerateInstanceLayerProperties false,
         .vkCreateInstance (create_instance_create_info true h)
           (h.vkCreateInstance (create_instance_create_info true h)),
         .vkCreateDebugUtilsMessengerEXT
           (h.vkCreateInstance (create_instance_create_info true h)).2
           create_debug_messenger_create_info
           (h.vkCreateDebugUtilsMessengerEXT
             (h.vkCreateInstance (create_instance_create_info true h)).2
             create_debug_messenger_create_info)]
    ∧ (main true h uninit indeterminate).1.any DriverCall.isDestroy = false := by
  have hci := create_instance_supported h hsup
  simp only [hinst, if_true] at hci
  simp [main, create_vulkan_app, create_vulkan_app_body, hci, create_debug_messenger, hchan,
    DriverCall.isDestroy]

theorem channel_rejected_terminates_without_teardown_witness :
    (check_validation_layer_support validation_layers hostChannelRejected).2 = true
    ∧ (main true hostChannelRejected ⟨0, 0⟩ ⟨0, 0⟩).2 = .terminate ChannelCreationFailed
    ∧ (main true hostChannelRejected ⟨0, 0⟩ ⟨0, 0⟩).1.any DriverCall.isDestroy = false :=
  ⟨by decide,
   (channel_rejected_terminates_without_teardown hostChannelRejected ⟨0, 0⟩ ⟨0, 0⟩
      (by decide) (by decide) (by decide)).2.1,
   (channel_rejected_terminates_without_teardown hostChannelRejected ⟨0, 0⟩ ⟨0, 0⟩
      (by decide) (by decide) (by decide)).2.2.2⟩

theorem destroy_times_instance_count (enable_vk_validation : Bool) (app : VulkanApp)
    (k : Nat) :
    (destroy_vulkan_app_times enable_vk_validation app k).countP
        (DriverCall.destroysInstance app.instance_) = k := by
  induction k with
  | zero => rfl
  | succ k ih =>
    cases enable_vk_validation <;>
      simp [destroy_vulkan_app_times, destroy_vulkan_app, List.countP_cons,
        DriverCall.destroysInstance, ih]

theorem destroy_times_messenger_enabled (app : VulkanApp) (k : Nat) :
    (destroy_vulkan_app_times true app k).countP
        (DriverCall.destroysMessenger app.debug_messenger) = k := by
  induction k with
  | zero => rfl
  | succ k ih =>
    simp [destroy_vulkan_app_times, destroy_vulkan_app, List.countP_cons,
      DriverCall.destroysMessenger, ih]

theorem destroy_times_messenger_disabled (app : VulkanApp) (k : Nat) :
    (destroy_vulkan_app_times false app k).countP
        (DriverCall.destroysMessenger app.debug_messenger) = 0 := by
  induction k with
  | zero => rfl
  | succ k ih =>
    rw [destroy_vulkan_app_times, List.countP_append, ih]
    simp [destroy_vulkan_app, List.countP_cons, DriverCall.destroysMessenger]

theorem destroy_times_flatten (enable_vk_validation : Bool) (app : VulkanApp) (k : Nat) :
    destroy_vulkan_app_times enable_vk_validation app k =
      (List.replicate k (destroy_vulkan_app enable_vk_validation app)).flatten := by
  induction k with
  | zero => rfl
  | succ k ih =>
    rw [destroy_vulkan_app_times, ih, List.replicate_succ, List.flatten_cons]

/-- C5 as stated fails: two calls of `destroy_vulkan_app` on the same
aggregate pass its instance handle and its messenger handle to a destroy call
twice each, and a call on an aggregate that was never started destroys a
handle that no call created. -/
theorem double_stop_destroys_twice :
    ¬ ((destroy_vulkan_app true ⟨7, 9⟩ ++ destroy_vulkan_app true ⟨7, 9⟩).countP
          (DriverCall.destroysInstance 7) ≤ 1)
    ∧ ¬ ((destroy_vulkan_app true ⟨7, 9⟩ ++ destroy_vulkan_app true ⟨7, 9⟩).countP
          (DriverCall.destroysMessenger 9) ≤ 1)
    ∧ (destroy_vulkan_app true ⟨7, 9⟩).any (DriverCall.createsInstance 7) = false
    ∧ (destroy_vulkan_app true ⟨7, 9⟩).any (DriverCall.destroysInstance 7) = true := by
  refine ⟨by decide, by decide, by decide, by decide⟩

/-- C5 amended: `destroy_vulkan_app` keeps no lifecycle state: each call, on
any aggregate, issues with diagnostics enabled exactly the messenger destroy
call for the aggregate's messenger followed by the instance destroy call for
its instance, and with diagnostics disabled exactly the instance destroy call.
The trace of `k` successive calls on one aggregate is that call list `k`
times over, so the instance handle is destroyed exactly `k` times, the
messenger handle exactly `k` times with diagnostics enabled and never with
diagnostics disabled, and the instance handle, as well as the messenger handle
with diagnostics enabled, is destroyed at most once exactly when stop is
called at most once. -/
theorem destroy_vulkan_app_times_count (enable_vk_validation : Bool) (app : VulkanApp)
    (k : Nat) :
    destroy_vulkan_app true app =
      [.vkDestroyDebugUtilsMessengerEXT app.instance_ app.debug_messenger,
       .vkDestroyInstance app.instance_]
    ∧ destroy_vulkan_app false app = [.vkDestroyInstance app.instance_]
    ∧ destroy_vulkan_app_times enable_vk_validation app k =
        (List.replicate k (destroy_vulkan_app enable_vk_validation app)).flatten
    ∧ (destroy_vulkan_app_times enable_vk_validation app k).countP
        (DriverCall.destroysInstance app.instance_) = k
    ∧ (destroy_vulkan_app_times true app k).countP
        (DriverCall.destroysMessenger app.debug_messenger) = k
    ∧ (destroy_vulkan_app_times false app k).countP
        (DriverCall.destroysMessenger app.debug_messenger) = 0
    ∧ ((destroy_vulkan_app_times enable_vk_validation app k).countP
        (DriverCall.destroysInstance app.instance_) ≤ 1 ↔ k ≤ 1)
    ∧ ((destroy_vulkan_app_times true app k).countP
        (DriverCall.destroysMessenger app.debug_messenger) ≤ 1 ↔ k ≤ 1) := by
  refine ⟨rfl, rfl, destroy_times_flatten enable_vk_validation app k,
    destroy_times_instance_count enable_vk_validation app k,
    destroy_times_messenger_enabled app k, destroy_times_messenger_disabled app k, ?_, ?_⟩
  · rw [destroy_times_instance_count]
  · rw [destroy_times_messenger_enabled]

end VulkanDemos
